import Mathlib

/-
Shallow embedding of rotem-ashkenazi/go-observability, pkg/logger/logger.go.

The repository is a thin wrapper around the OpenTelemetry logging SDK:
`InitLogs` validates the configuration, resolves defaults and environment
fallbacks, builds a resource descriptor, constructs an OTLP gRPC exporter
behind a batching processor (plus an optional stdout simple processor),
installs a global LoggerProvider and returns its shutdown function.
`Logger` fetches a named handle from the global provider, and
`Debug`/`Info`/`Warn`/`Error` stamp a record and hand it to the handle.

External SDK constructors (`resource.New`, `otlploggrpc.New`,
`stdoutlog.New`) are modelled as an oracle `World` whose outcomes are
inputs; `os.Getenv` is modelled by an explicit environment function; the
process-wide global provider is explicit state threaded through `InitLogs`.
Every external call `InitLogs` makes is recorded, with the exact arguments
the Go code passes, in a trace, so that theorems can speak about which
calls happen and with what data. Durations (Go `time.Duration`) are `Int`
nanoseconds; Go `int` is `Int`.
-/

namespace GoObservability

/-- Attribute values carried in OTel key/value pairs; only the cases the
wrapper itself constructs are needed (`attribute.String`, zero body). -/
inductive LogValue where
  | empty
  | str (s : String)
  deriving DecidableEq, Repr

/-- An OTel key/value attribute (`attribute.KeyValue` / `otellog.KeyValue`). -/
structure KeyValue where
  key : String
  value : LogValue
  deriving DecidableEq, Repr

/-- Log severities used by the emitters (`otellog.Severity*`);
`undefined` is the Go zero value of the field. -/
inductive Severity where
  | undefined
  | debug
  | info
  | warn
  | error
  deriving DecidableEq, Repr

/-- An `otellog.Record`: timestamp (Unix nanoseconds), severity, body,
ordered attribute list. -/
structure Record where
  timestamp : Int
  severity : Severity
  body : LogValue
  attributes : List KeyValue
  deriving DecidableEq, Repr

/-- The Go zero value `var r otellog.Record`. -/
def Record.zero : Record :=
  { timestamp := 0, severity := .undefined, body := .empty, attributes := [] }

/-- `Record.SetTimestamp`. -/
def Record.SetTimestamp (r : Record) (t : Int) : Record :=
  { r with timestamp := t }

/-- `Record.SetSeverity`. -/
def Record.SetSeverity (r : Record) (s : Severity) : Record :=
  { r with severity := s }

/-- `Record.SetBody`. -/
def Record.SetBody (r : Record) (b : LogValue) : Record :=
  { r with body := b }

/-- `Record.AddAttributes` for a single attribute (the Go code adds the
variadic attributes one at a time in a loop). -/
def Record.AddAttributes (r : Record) (a : KeyValue) : Record :=
  { r with attributes := r.attributes ++ [a] }

/-- The `Config` struct of pkg/logger/logger.go. `DialTimeout` and
`ExportInterval` are `time.Duration` (int64 nanoseconds), modelled as `Int`. -/
structure Config where
  Endpoint : String
  Insecure : Bool
  ServiceName : String
  ServiceVer : String
  Environment : String
  LogLevel : String
  EnableStdout : Bool
  DialTimeout : Int
  ExportInterval : Int
  MaxQueueSize : Int
  deriving DecidableEq, Repr

def nsPerMillisecond : Int := 1000000

def nsPerSecond : Int := 1000000000

/-- Arguments `InitLogs` passes to `resource.New`: the three option flags
`resource.WithFromEnv`, `resource.WithHost`, `resource.WithTelemetrySDK`,
and the explicit attribute list of `resource.WithAttributes`. -/
structure ResourceArgs where
  fromEnv : Bool
  host : Bool
  telemetrySDK : Bool
  attributes : List KeyValue
  deriving DecidableEq, Repr

/-- The resource descriptor built by the SDK (external): the merged
attribute set, opaque to the wrapper. -/
structure Resource where
  merged : List KeyValue
  deriving DecidableEq, Repr

/-- `backoff.Config`: base delay and max delay in nanoseconds, multiplier
as an exact rational. -/
structure BackoffConfig where
  BaseDelay : Int
  Multiplier : Rat
  MaxDelay : Int
  deriving DecidableEq, Repr

/-- Transport credentials a dial option can carry; the wrapper only ever
constructs `insecure.NewCredentials()`. -/
inductive TransportCredentials where
  | insecure
  deriving DecidableEq, Repr

/-- The gRPC dial options the wrapper constructs. -/
inductive DialOption where
  | block
  | connectParams (b : BackoffConfig) (minConnectTimeout : Int)
  | transportCredentials (c : TransportCredentials)
  deriving DecidableEq, Repr

/-- An OTLP log exporter as returned by `otlploggrpc.New` (opaque). -/
structure OtlpExporter where
  id : Nat
  deriving DecidableEq, Repr

/-- A stdout log exporter as returned by `stdoutlog.New` (opaque). -/
structure StdoutExporter where
  id : Nat
  deriving DecidableEq, Repr

/-- Arguments `InitLogs` passes to `otlploggrpc.New`:
`WithEndpoint` and `WithDialOption`. -/
structure OtlpArgs where
  Endpoint : String
  DialOptions : List DialOption
  deriving DecidableEq, Repr

/-- An SDK log processor: `sdklog.NewBatchProcessor` with its export
interval and max queue size, or `sdklog.NewSimpleProcessor`. -/
inductive Processor where
  | batch (e : OtlpExporter) (exportInterval : Int) (maxQueueSize : Int)
  | simple (e : StdoutExporter)
  deriving DecidableEq, Repr

/-- `sdklog.LoggerProvider`: the resource plus the ordered processor list. -/
structure LoggerProvider where
  res : Resource
  processors : List Processor
  deriving DecidableEq, Repr

/-- The process-wide global of `go.opentelemetry.io/otel/log/global`:
either the default no-op provider or an installed SDK provider. -/
inductive GlobalState where
  | noop
  | sdk (lp : LoggerProvider)
  deriving DecidableEq, Repr

/-- The global provider before any `InitLogs` call: the no-op default. -/
def defaultGlobal : GlobalState := .noop

/-- Errors `InitLogs` can return, with the wrapped message of the
`fmt.Errorf` wraps. -/
inductive InitError where
  | configError
  | resourceBuildError (msg : String)
  | exporterInitError (msg : String)
  | stdoutExporterInitError (msg : String)
  deriving DecidableEq, Repr

/-- External calls `InitLogs` makes, recorded with the exact arguments. -/
inductive Call where
  | getenv (name : String)
  | resourceNew (args : ResourceArgs)
  | otlpNew (endpoint : String) (dialOptions : List DialOption)
  | stdoutNew
  | setLoggerProvider (lp : LoggerProvider)
  deriving DecidableEq, Repr

/-- The process environment: `os.Getenv` semantics, returning `""` for an
unset variable. -/
def Env : Type := String → String

/-- Outcomes of the external SDK constructors, supplied as an oracle. -/
structure World where
  resourceNew : ResourceArgs → Except String Resource
  otlpNew : OtlpArgs → Except String OtlpExporter
  stdoutNew : Except String StdoutExporter

/-- Result of `InitLogs`: the global provider state after the call, the
returned value (the provider whose `Shutdown` is handed back, or the
error), and the trace of external calls made. -/
structure InitResult where
  global : GlobalState
  result : Except InitError LoggerProvider
  trace : List Call
  deriving Repr

/-- Endpoint resolution of logger.go lines 51-57: explicit value, else
`OTEL_EXPORTER_OTLP_ENDPOINT`, else `"localhost:4317"`. -/
def resolvedEndpoint (env : Env) (cfg : Config) : String :=
  if cfg.Endpoint = "" then
    if env "OTEL_EXPORTER_OTLP_ENDPOINT" = "" then "localhost:4317"
    else env "OTEL_EXPORTER_OTLP_ENDPOINT"
  else cfg.Endpoint

/-- The `os.Getenv` calls made while resolving the endpoint: one lookup
exactly when `cfg.Endpoint` is empty (logger.go line 53). -/
def endpointTrace (cfg : Config) : List Call :=
  if cfg.Endpoint = "" then [Call.getenv "OTEL_EXPORTER_OTLP_ENDPOINT"] else []

/-- logger.go lines 58-60: dial timeout defaults to 10s when zero. -/
def resolvedDialTimeout (cfg : Config) : Int :=
  if cfg.DialTimeout = 0 then 10 * nsPerSecond else cfg.DialTimeout

/-- logger.go lines 61-63: export interval defaults to 2s when zero. -/
def resolvedExportInterval (cfg : Config) : Int :=
  if cfg.ExportInterval = 0 then 2 * nsPerSecond else cfg.ExportInterval

/-- logger.go lines 64-66: max queue size defaults to 4096 when zero. -/
def resolvedMaxQueueSize (cfg : Config) : Int :=
  if cfg.MaxQueueSize = 0 then 4096 else cfg.MaxQueueSize

/-- The `resource.New` arguments of logger.go lines 69-79. -/
def resourceArgsFor (cfg : Config) : ResourceArgs :=
  { fromEnv := true
    host := true
    telemetrySDK := true
    attributes :=
      [ { key := "service.name", value := .str cfg.ServiceName }
      , { key := "service.version", value := .str cfg.ServiceVer }
      , { key := "deployment.environment", value := .str cfg.Environment }
      , { key := "deployment.log_level", value := .str cfg.LogLevel } ] }

/-- The backoff policy `bo` of logger.go lines 84-88: base delay 500ms,
multiplier 1.6, max delay 5s. -/
def bo : BackoffConfig :=
  { BaseDelay := 500 * nsPerMillisecond
    Multiplier := (1.6 : Rat)
    MaxDelay := 5 * nsPerSecond }

/-- The dial options of logger.go lines 89-98: `grpc.WithBlock`,
`grpc.WithConnectParams` with `bo` and the resolved dial timeout, and,
only when `Insecure` is set, insecure transport credentials. -/
def dialOptsFor (cfg : Config) : List DialOption :=
  let base := [DialOption.block, DialOption.connectParams bo (resolvedDialTimeout cfg)]
  if cfg.Insecure = true then base ++ [DialOption.transportCredentials .insecure]
  else base

/-- `InitLogs` of logger.go lines 46-143, over explicit environment,
external-constructor oracle and global state, returning the new global
state, the returned value, and the trace of external calls. -/
def InitLogs (env : Env) (w : World) (cfg : Config) (g : GlobalState) : InitResult :=
  if cfg.ServiceName = "" then
    { global := g, result := .error .configError, trace := [] }
  else
    let endpoint := resolvedEndpoint env cfg
    let tr1 := endpointTrace cfg ++ [Call.resourceNew (resourceArgsFor cfg)]
    match w.resourceNew (resourceArgsFor cfg) with
    | .error e => { global := g, result := .error (.resourceBuildError e), trace := tr1 }
    | .ok res =>
      let dialOpts := dialOptsFor cfg
      let tr2 := tr1 ++ [Call.otlpNew endpoint dialOpts]
      match w.otlpNew { Endpoint := endpoint, DialOptions := dialOpts } with
      | .error e => { global := g, result := .error (.exporterInitError e), trace := tr2 }
      | .ok otlpExp =>
        let otlpProcessor :=
          Processor.batch otlpExp (resolvedExportInterval cfg) (resolvedMaxQueueSize cfg)
        if cfg.EnableStdout = true then
          let tr3 := tr2 ++ [Call.stdoutNew]
          match w.stdoutNew with
          | .error e =>
            { global := g, result := .error (.stdoutExporterInitError e), trace := tr3 }
          | .ok stdoutExp =>
            let lp : LoggerProvider :=
              { res := res, processors := [otlpProcessor, Processor.simple stdoutExp] }
            { global := .sdk lp, result := .ok lp
              trace := tr3 ++ [Call.setLoggerProvider lp] }
        else
          let lp : LoggerProvider := { res := res, processors := [otlpProcessor] }
          { global := .sdk lp, result := .ok lp
            trace := tr2 ++ [Call.setLoggerProvider lp] }

/-- A named logger handle: the provider it was taken from plus its name. -/
structure LoggerHandle where
  provider : GlobalState
  name : String
  deriving DecidableEq, Repr

/-- `logglobal.GetLoggerProvider()`: reads the global. -/
def GetLoggerProvider (g : GlobalState) : GlobalState := g

/-- `Logger` of logger.go lines 146-148: a named handle from the global
provider. Total: it never fails. -/
def Logger (g : GlobalState) (name : String) : LoggerHandle :=
  { provider := GetLoggerProvider g, name := name }

/-- `Emit` on a handle: the records delivered to the provider's
processors; the default no-op provider discards the record. -/
def LoggerHandle.Emit (l : LoggerHandle) (r : Record) : List Record :=
  match l.provider with
  | .noop => []
  | .sdk lp => lp.processors.map (fun _ => r)

/-- `Info` of logger.go lines 151-160; `now` is the wall-clock instant of
`time.Now()`. Returns the list of records handed to `l.Emit`, in order. -/
def Info (now : Int) (l : LoggerHandle) (msg : String) (attrs : List KeyValue) :
    List Record :=
  let r := Record.zero
  let r := r.SetTimestamp now
  let r := r.SetSeverity .info
  let r := r.SetBody (.str msg)
  let r := attrs.foldl (fun acc a => acc.AddAttributes a) r
  [r]

/-- `Error` of logger.go lines 162-171. -/
def Error (now : Int) (l : LoggerHandle) (msg : String) (attrs : List KeyValue) :
    List Record :=
  let r := Record.zero
  let r := r.SetTimestamp now
  let r := r.SetSeverity .error
  let r := r.SetBody (.str msg)
  let r := attrs.foldl (fun acc a => acc.AddAttributes a) r
  [r]

/-- `Warn` of logger.go lines 173-182. -/
def Warn (now : Int) (l : LoggerHandle) (msg : String) (attrs : List KeyValue) :
    List Record :=
  let r := Record.zero
  let r := r.SetTimestamp now
  let r := r.SetSeverity .warn
  let r := r.SetBody (.str msg)
  let r := attrs.foldl (fun acc a => acc.AddAttributes a) r
  [r]

/-- `Debug` of logger.go lines 184-193. -/
def Debug (now : Int) (l : LoggerHandle) (msg : String) (attrs : List KeyValue) :
    List Record :=
  let r := Record.zero
  let r := r.SetTimestamp now
  let r := r.SetSeverity .debug
  let r := r.SetBody (.str msg)
  let r := attrs.foldl (fun acc a => acc.AddAttributes a) r
  [r]

/- Concrete fixtures used by the witnesses. -/

/-- An environment with every variable unset. -/
def env0 : Env := fun _ => ""

/-- An environment where only `OTEL_EXPORTER_OTLP_ENDPOINT` is set. -/
def envWithEndpoint : Env := fun n =>
  if n = "OTEL_EXPORTER_OTLP_ENDPOINT" then "collector:4317" else ""

/-- A world where every external constructor succeeds. -/
def okWorld : World :=
  { resourceNew := fun args => .ok { merged := args.attributes }
    otlpNew := fun _ => .ok { id := 0 }
    stdoutNew := .ok { id := 0 } }

/-- A world where only the stdout exporter constructor fails. -/
def failStdoutWorld : World := { okWorld with stdoutNew := .error "stdout boom" }

/-- A world where only the resource build fails. -/
def failResourceWorld : World :=
  { okWorld with resourceNew := fun _ => .error "resource boom" }

/-- A minimal valid configuration: required service name set, all optional
fields at their Go zero values. -/
def cfgBase : Config :=
  { Endpoint := "", Insecure := false, ServiceName := "svc", ServiceVer := ""
    Environment := "", LogLevel := "", EnableStdout := false
    DialTimeout := 0, ExportInterval := 0, MaxQueueSize := 0 }

/-- A configuration violating the required-service-name invariant. -/
def cfgEmptyName : Config := { cfgBase with ServiceName := "" }

/-- A valid configuration with strictly negative tunables. -/
def cfgNegative : Config :=
  { cfgBase with DialTimeout := -1, ExportInterval := -2, MaxQueueSize := -3 }

/-- A valid configuration with the Insecure flag set. -/
def cfgInsecure : Config := { cfgBase with Insecure := true }

/-- A valid configuration with stdout mirroring enabled. -/
def cfgStdout : Config := { cfgBase with EnableStdout := true }

/- Helper lemmas. -/

lemma mem_endpointTrace (cfg : Config) (c : Call) :
    c ∈ endpointTrace cfg ↔
      (cfg.Endpoint = "" ∧ c = Call.getenv "OTEL_EXPORTER_OTLP_ENDPOINT") := by
  unfold endpointTrace
  split <;> simp_all

lemma connectParams_mem_dialOptsFor (cfg : Config) :
    DialOption.connectParams bo (resolvedDialTimeout cfg) ∈ dialOptsFor cfg := by
  by_cases h : cfg.Insecure = true <;> simp [dialOptsFor, h]

lemma block_mem_dialOptsFor (cfg : Config) :
    DialOption.block ∈ dialOptsFor cfg := by
  by_cases h : cfg.Insecure = true <;> simp [dialOptsFor, h]

lemma creds_mem_dialOptsFor (cfg : Config) (c : TransportCredentials) :
    DialOption.transportCredentials c ∈ dialOptsFor cfg ↔ cfg.Insecure = true := by
  by_cases h : cfg.Insecure = true <;> cases c <;> simp [dialOptsFor, h]

lemma resolvedEndpoint_spec (env : Env) (cfg : Config) :
    resolvedEndpoint env cfg =
      if cfg.Endpoint ≠ "" then cfg.Endpoint
      else if env "OTEL_EXPORTER_OTLP_ENDPOINT" ≠ "" then
        env "OTEL_EXPORTER_OTLP_ENDPOINT"
      else "localhost:4317" := by
  unfold resolvedEndpoint
  by_cases h1 : cfg.Endpoint = "" <;>
    by_cases h2 : env "OTEL_EXPORTER_OTLP_ENDPOINT" = "" <;> simp [h1, h2]

/-- Exhaustive path analysis of `InitLogs`: empty service name, resource
build failure, OTLP exporter failure, stdout exporter failure, success
without stdout, success with stdout. -/
lemma initLogs_cases (env : Env) (w : World) (cfg : Config) (g : GlobalState) :
    (cfg.ServiceName = "" ∧
      InitLogs env w cfg g =
        { global := g, result := .error .configError, trace := [] }) ∨
    (cfg.ServiceName ≠ "" ∧ ∃ e,
      w.resourceNew (resourceArgsFor cfg) = .error e ∧
      InitLogs env w cfg g =
        { global := g, result := .error (.resourceBuildError e)
          trace := endpointTrace cfg ++ [Call.resourceNew (resourceArgsFor cfg)] }) ∨
    (cfg.ServiceName ≠ "" ∧ ∃ res e,
      w.resourceNew (resourceArgsFor cfg) = .ok res ∧
      w.otlpNew { Endpoint := resolvedEndpoint env cfg, DialOptions := dialOptsFor cfg }
        = .error e ∧
      InitLogs env w cfg g =
        { global := g, result := .error (.exporterInitError e)
          trace := endpointTrace cfg ++
            [Call.resourceNew (resourceArgsFor cfg),
             Call.otlpNew (resolvedEndpoint env cfg) (dialOptsFor cfg)] }) ∨
    (cfg.ServiceName ≠ "" ∧ cfg.EnableStdout = true ∧ ∃ res oe e,
      w.resourceNew (resourceArgsFor cfg) = .ok res ∧
      w.otlpNew { Endpoint := resolvedEndpoint env cfg, DialOptions := dialOptsFor cfg }
        = .ok oe ∧
      w.stdoutNew = .error e ∧
      InitLogs env w cfg g =
        { global := g, result := .error (.stdoutExporterInitError e)
          trace := endpointTrace cfg ++
            [Call.resourceNew (resourceArgsFor cfg),
             Call.otlpNew (resolvedEndpoint env cfg) (dialOptsFor cfg),
             Call.stdoutNew] }) ∨
    (cfg.ServiceName ≠ "" ∧ cfg.EnableStdout = false ∧ ∃ res oe,
      w.resourceNew (resourceArgsFor cfg) = .ok res ∧
      w.otlpNew { Endpoint := resolvedEndpoint env cfg, DialOptions := dialOptsFor cfg }
        = .ok oe ∧
      InitLogs env w cfg g =
        { global := .sdk { res := res, processors :=
            [Processor.batch oe (resolvedExportInterval cfg) (resolvedMaxQueueSize cfg)] }
          result := .ok { res := res, processors :=
            [Processor.batch oe (resolvedExportInterval cfg) (resolvedMaxQueueSize cfg)] }
          trace := endpointTrace cfg ++
            [Call.resourceNew (resourceArgsFor cfg),
             Call.otlpNew (resolvedEndpoint env cfg) (dialOptsFor cfg),
             Call.setLoggerProvider { res := res, processors :=
               [Processor.batch oe (resolvedExportInterval cfg)
                 (resolvedMaxQueueSize cfg)] }] }) ∨
    (cfg.ServiceName ≠ "" ∧ cfg.EnableStdout = true ∧ ∃ res oe se,
      w.resourceNew (resourceArgsFor cfg) = .ok res ∧
      w.otlpNew { Endpoint := resolvedEndpoint env cfg, DialOptions := dialOptsFor cfg }
        = .ok oe ∧
      w.stdoutNew = .ok se ∧
      InitLogs env w cfg g =
        { global := .sdk { res := res, processors :=
            [Processor.batch oe (resolvedExportInterval cfg) (resolvedMaxQueueSize cfg),
             Processor.simple se] }
          result := .ok { res := res, processors :=
            [Processor.batch oe (resolvedExportInterval cfg) (resolvedMaxQueueSize cfg),
             Processor.simple se] }
          trace := endpointTrace cfg ++
            [Call.resourceNew (resourceArgsFor cfg),
             Call.otlpNew (resolvedEndpoint env cfg) (dialOptsFor cfg),
             Call.stdoutNew,
             Call.setLoggerProvider { res := res, processors :=
               [Processor.batch oe (resolvedExportInterval cfg)
                 (resolvedMaxQueueSize cfg), Processor.simple se] }] }) := by
  by_cases hname : cfg.ServiceName = ""
  · exact Or.inl ⟨hname, by simp [InitLogs, hname]⟩
  · rcases hres : w.resourceNew (resourceArgsFor cfg) with e | res
    · exact Or.inr (Or.inl ⟨hname, e, rfl, by simp [InitLogs, hname, hres]⟩)
    · rcases hotlp : w.otlpNew
        { Endpoint := resolvedEndpoint env cfg, DialOptions := dialOptsFor cfg }
        with e | oe
      · exact Or.inr (Or.inr (Or.inl
          ⟨hname, res, e, rfl, rfl, by simp [InitLogs, hname, hres, hotlp]⟩))
      · by_cases hstd : cfg.EnableStdout = true
        · rcases hso : w.stdoutNew with e | se
          · exact Or.inr (Or.inr (Or.inr (Or.inl
              ⟨hname, hstd, res, oe, e, rfl, rfl, rfl,
               by simp [InitLogs, hname, hres, hotlp, hstd, hso]⟩)))
          · exact Or.inr (Or.inr (Or.inr (Or.inr (Or.inr
              ⟨hname, hstd, res, oe, se, rfl, rfl, rfl,
               by simp [InitLogs, hname, hres, hotlp, hstd, hso]⟩))))
        · exact Or.inr (Or.inr (Or.inr (Or.inr (Or.inl
            ⟨hname, by simpa using hstd, res, oe, rfl, rfl,
             by simp [InitLogs, hname, hres, hotlp, hstd]⟩))))

lemma foldl_AddAttributes (attrs : List KeyValue) (r : Record) :
    attrs.foldl (fun acc a => acc.AddAttributes a) r =
      { r with attributes := r.attributes ++ attrs } := by
  induction attrs generalizing r with
  | nil => simp
  | cons a as ih =>
    rw [List.foldl_cons, ih]
    simp [Record.AddAttributes]

/-- C4: each of Debug, Info, Warn and Error builds exactly one record —
timestamp the current wall clock, the fixed severity named by the
function, the message as body, the given attributes in the given order —
and hands it to the handle's Emit exactly once, with no return value or
error. -/
theorem emitters_build_one_record (now : Int) (l : LoggerHandle) (msg : String)
    (attrs : List KeyValue) :
    Debug now l msg attrs =
      [{ timestamp := now, severity := .debug, body := .str msg, attributes := attrs }] ∧
    Info now l msg attrs =
      [{ timestamp := now, severity := .info, body := .str msg, attributes := attrs }] ∧
    Warn now l msg attrs =
      [{ timestamp := now, severity := .warn, body := .str msg, attributes := attrs }] ∧
    Error now l msg attrs =
      [{ timestamp := now, severity := .error, body := .str msg, attributes := attrs }] := by
  refine ⟨?_, ?_, ?_, ?_⟩ <;>
    simp [Debug, Info, Warn, Error, foldl_AddAttributes, Record.zero,
      Record.SetTimestamp, Record.SetSeverity, Record.SetBody]

/-- C5: Logger is total for every name; before any InitLogs call the
global provider is the no-op default, the handle returned carries it, and
emitting through that handle delivers nothing (no crash, no effect). -/
theorem logger_noop_before_init (name : String) :
    Logger defaultGlobal name = { provider := GlobalState.noop, name := name } ∧
    ∀ r : Record, (Logger defaultGlobal name).Emit r = [] := by
  exact ⟨rfl, fun r => rfl⟩

/-- C1: with an empty service name InitLogs returns the config error; on
every error path the returned value is an error, the global provider state
is unchanged, and SetLoggerProvider is never reached (it appears in the
call trace only on the full success path). -/
theorem initLogs_error_paths_atomic (env : Env) (w : World) (cfg : Config)
    (g : GlobalState) :
    (cfg.ServiceName = "" →
      (InitLogs env w cfg g).result = .error .configError) ∧
    (∀ e, (InitLogs env w cfg g).result = .error e →
      (InitLogs env w cfg g).global = g ∧
      ∀ lp, Call.setLoggerProvider lp ∉ (InitLogs env w cfg g).trace) := by
  rcases initLogs_cases env w cfg g with
    ⟨hn, hR⟩ | ⟨hn, e, hres, hR⟩ | ⟨hn, res, e, hres, hotlp, hR⟩ |
    ⟨hn, hstd, res, oe, e, hres, hotlp, hso, hR⟩ |
    ⟨hn, hstd, res, oe, hres, hotlp, hR⟩ |
    ⟨hn, hstd, res, oe, se, hres, hotlp, hso, hR⟩ <;> rw [hR]
  · exact ⟨fun _ => rfl, fun e _ => ⟨rfl, fun lp => by simp⟩⟩
  · exact ⟨fun hc => absurd hc hn,
      fun e2 _ => ⟨rfl, fun lp => by simp [mem_endpointTrace]⟩⟩
  · exact ⟨fun hc => absurd hc hn,
      fun e2 _ => ⟨rfl, fun lp => by simp [mem_endpointTrace]⟩⟩
  · exact ⟨fun hc => absurd hc hn,
      fun e2 _ => ⟨rfl, fun lp => by simp [mem_endpointTrace]⟩⟩
  · exact ⟨fun hc => absurd hc hn, fun e2 he => by simp at he⟩
  · exact ⟨fun hc => absurd hc hn, fun e2 he => by simp at he⟩

/-- C1 witness: at the empty-service-name configuration the call returns
the config error and leaves the default global untouched. -/
theorem initLogs_error_paths_atomic_witness :
    (InitLogs env0 okWorld cfgEmptyName defaultGlobal).result = .error .configError ∧
    (InitLogs env0 okWorld cfgEmptyName defaultGlobal).global = defaultGlobal := by
  have h := initLogs_error_paths_atomic env0 okWorld cfgEmptyName defaultGlobal
  have h1 := h.1 rfl
  exact ⟨h1, (h.2 _ h1).1⟩

/- Evaluations of `InitLogs` at the concrete fixtures, used by the
witnesses below. -/

/-- The provider built from `cfgBase` by `okWorld`. -/
def lpBase : LoggerProvider :=
  { res := { merged := (resourceArgsFor cfgBase).attributes }
    processors := [Processor.batch { id := 0 } (2 * nsPerSecond) 4096] }

/-- The provider built from `cfgNegative` by `okWorld`. -/
def lpNegative : LoggerProvider :=
  { res := { merged := (resourceArgsFor cfgNegative).attributes }
    processors := [Processor.batch { id := 0 } (-2) (-3)] }

/-- The provider built from `cfgStdout` by `okWorld`. -/
def lpStdout : LoggerProvider :=
  { res := { merged := (resourceArgsFor cfgStdout).attributes }
    processors := [Processor.batch { id := 0 } (2 * nsPerSecond) 4096
      , Processor.simple { id := 0 }] }

/-- The provider built from `cfgInsecure` by `okWorld`. -/
def lpInsecure : LoggerProvider :=
  { res := { merged := (resourceArgsFor cfgInsecure).attributes }
    processors := [Processor.batch { id := 0 } (2 * nsPerSecond) 4096] }

lemma initLogs_eval_base :
    InitLogs env0 okWorld cfgBase defaultGlobal =
      { global := .sdk lpBase, result := .ok lpBase
        trace := [Call.getenv "OTEL_EXPORTER_OTLP_ENDPOINT"
          , Call.resourceNew (resourceArgsFor cfgBase)
          , Call.otlpNew "localhost:4317" (dialOptsFor cfgBase)
          , Call.setLoggerProvider lpBase] } := rfl

lemma initLogs_eval_envEndpoint :
    InitLogs envWithEndpoint okWorld cfgBase defaultGlobal =
      { global := .sdk lpBase, result := .ok lpBase
        trace := [Call.getenv "OTEL_EXPORTER_OTLP_ENDPOINT"
          , Call.resourceNew (resourceArgsFor cfgBase)
          , Call.otlpNew "collector:4317" (dialOptsFor cfgBase)
          , Call.setLoggerProvider lpBase] } := rfl

lemma initLogs_eval_negative :
    InitLogs env0 okWorld cfgNegative defaultGlobal =
      { global := .sdk lpNegative, result := .ok lpNegative
        trace := [Call.getenv "OTEL_EXPORTER_OTLP_ENDPOINT"
          , Call.resourceNew (resourceArgsFor cfgNegative)
          , Call.otlpNew "localhost:4317" (dialOptsFor cfgNegative)
          , Call.setLoggerProvider lpNegative] } := rfl

lemma initLogs_eval_stdout :
    InitLogs env0 okWorld cfgStdout defaultGlobal =
      { global := .sdk lpStdout, result := .ok lpStdout
        trace := [Call.getenv "OTEL_EXPORTER_OTLP_ENDPOINT"
          , Call.resourceNew (resourceArgsFor cfgStdout)
          , Call.otlpNew "localhost:4317" (dialOptsFor cfgStdout)
          , Call.stdoutNew
          , Call.setLoggerProvider lpStdout] } := rfl

lemma initLogs_eval_failStdout :
    InitLogs env0 failStdoutWorld cfgStdout defaultGlobal =
      { global := defaultGlobal
        result := .error (.stdoutExporterInitError "stdout boom")
        trace := [Call.getenv "OTEL_EXPORTER_OTLP_ENDPOINT"
          , Call.resourceNew (resourceArgsFor cfgStdout)
          , Call.otlpNew "localhost:4317" (dialOptsFor cfgStdout)
          , Call.stdoutNew] } := rfl

lemma initLogs_eval_failResource :
    InitLogs env0 failResourceWorld cfgBase defaultGlobal =
      { global := defaultGlobal
        result := .error (.resourceBuildError "resource boom")
        trace := [Call.getenv "OTEL_EXPORTER_OTLP_ENDPOINT"
          , Call.resourceNew (resourceArgsFor cfgBase)] } := rfl

lemma initLogs_eval_insecure :
    InitLogs env0 okWorld cfgInsecure defaultGlobal =
      { global := .sdk lpInsecure, result := .ok lpInsecure
        trace := [Call.getenv "OTEL_EXPORTER_OTLP_ENDPOINT"
          , Call.resourceNew (resourceArgsFor cfgInsecure)
          , Call.otlpNew "localhost:4317" (dialOptsFor cfgInsecure)
          , Call.setLoggerProvider lpInsecure] } := rfl

/-- C2: endpoint precedence — the environment variable is consulted
exactly when cfg.Endpoint is empty, and the endpoint handed to the OTLP
exporter constructor is the explicit value, else the non-empty environment
value, else "localhost:4317". -/
theorem initLogs_endpoint_precedence (env : Env) (w : World) (cfg : Config)
    (g : GlobalState) (h : cfg.ServiceName ≠ "") :
    (Call.getenv "OTEL_EXPORTER_OTLP_ENDPOINT" ∈ (InitLogs env w cfg g).trace ↔
      cfg.Endpoint = "") ∧
    (∀ ep opts, Call.otlpNew ep opts ∈ (InitLogs env w cfg g).trace →
      ep = if cfg.Endpoint ≠ "" then cfg.Endpoint
           else if env "OTEL_EXPORTER_OTLP_ENDPOINT" ≠ "" then
             env "OTEL_EXPORTER_OTLP_ENDPOINT"
           else "localhost:4317") := by
  rcases initLogs_cases env w cfg g with
    ⟨hn, hR⟩ | ⟨hn, e, hres, hR⟩ | ⟨hn, res, e, hres, hotlp, hR⟩ |
    ⟨hn, hstd, res, oe, e, hres, hotlp, hso, hR⟩ |
    ⟨hn, hstd, res, oe, hres, hotlp, hR⟩ |
    ⟨hn, hstd, res, oe, se, hres, hotlp, hso, hR⟩
  · exact absurd hn h
  · rw [hR]
    refine ⟨by simp [mem_endpointTrace], ?_⟩
    intro ep opts hm
    simp [mem_endpointTrace] at hm
  all_goals {
    rw [hR]
    refine ⟨by simp [mem_endpointTrace], ?_⟩
    intro ep opts hm
    have hm2 : ep = resolvedEndpoint env cfg := by
      simp [mem_endpointTrace] at hm
      tauto
    exact hm2.trans (resolvedEndpoint_spec env cfg) }

/-- C2 witness: with an empty explicit endpoint and the environment
variable set, the variable is consulted and its value is the one the
precedence chain selects. -/
theorem initLogs_endpoint_precedence_witness :
    Call.getenv "OTEL_EXPORTER_OTLP_ENDPOINT" ∈
      (InitLogs envWithEndpoint okWorld cfgBase defaultGlobal).trace ∧
    "collector:4317" =
      (if cfgBase.Endpoint ≠ "" then cfgBase.Endpoint
       else if envWithEndpoint "OTEL_EXPORTER_OTLP_ENDPOINT" ≠ "" then
         envWithEndpoint "OTEL_EXPORTER_OTLP_ENDPOINT"
       else "localhost:4317") := by
  have h := initLogs_endpoint_precedence envWithEndpoint okWorld cfgBase
    defaultGlobal (by decide)
  exact ⟨h.1.mpr rfl,
    h.2 "collector:4317" (dialOptsFor cfgBase)
      (by rw [initLogs_eval_envEndpoint]; simp)⟩

/-- C3: the dial timeout handed to the dial options, and the export
interval and max queue size handed to the batch processor, are the
supplied values when non-zero and the documented defaults (10s, 2s, 4096)
when zero. -/
theorem initLogs_zero_tunables_defaulted (env : Env) (w : World) (cfg : Config)
    (g : GlobalState) :
    (∀ ep opts, Call.otlpNew ep opts ∈ (InitLogs env w cfg g).trace →
      DialOption.connectParams bo
        (if cfg.DialTimeout = 0 then 10 * nsPerSecond else cfg.DialTimeout) ∈ opts) ∧
    (∀ lp, (InitLogs env w cfg g).result = .ok lp →
      ∃ oe, lp.processors.head? = some (Processor.batch oe
        (if cfg.ExportInterval = 0 then 2 * nsPerSecond else cfg.ExportInterval)
        (if cfg.MaxQueueSize = 0 then 4096 else cfg.MaxQueueSize))) := by
  have hdt : (if cfg.DialTimeout = 0 then 10 * nsPerSecond else cfg.DialTimeout)
      = resolvedDialTimeout cfg := rfl
  have hei : (if cfg.ExportInterval = 0 then 2 * nsPerSecond else cfg.ExportInterval)
      = resolvedExportInterval cfg := rfl
  have hqs : (if cfg.MaxQueueSize = 0 then 4096 else cfg.MaxQueueSize)
      = resolvedMaxQueueSize cfg := rfl
  rw [hdt, hei, hqs]
  rcases initLogs_cases env w cfg g with
    ⟨hn, hR⟩ | ⟨hn, e, hres, hR⟩ | ⟨hn, res, e, hres, hotlp, hR⟩ |
    ⟨hn, hstd, res, oe, e, hres, hotlp, hso, hR⟩ |
    ⟨hn, hstd, res, oe, hres, hotlp, hR⟩ |
    ⟨hn, hstd, res, oe, se, hres, hotlp, hso, hR⟩ <;> rw [hR]
  · exact ⟨fun ep opts hm => by simp at hm, fun lp hlp => by simp at hlp⟩
  · refine ⟨fun ep opts hm => ?_, fun lp hlp => by simp at hlp⟩
    simp [mem_endpointTrace] at hm
  · refine ⟨fun ep opts hm => ?_, fun lp hlp => by simp at hlp⟩
    have hm2 : opts = dialOptsFor cfg := by
      simp [mem_endpointTrace] at hm
      tauto
    rw [hm2]
    exact connectParams_mem_dialOptsFor cfg
  · refine ⟨fun ep opts hm => ?_, fun lp hlp => by simp at hlp⟩
    have hm2 : opts = dialOptsFor cfg := by
      simp [mem_endpointTrace] at hm
      tauto
    rw [hm2]
    exact connectParams_mem_dialOptsFor cfg
  · refine ⟨fun ep opts hm => ?_, fun lp hlp => ?_⟩
    · have hm2 : opts = dialOptsFor cfg := by
        simp [mem_endpointTrace] at hm
        tauto
      rw [hm2]
      exact connectParams_mem_dialOptsFor cfg
    · obtain rfl : _ = lp := by simpa using hlp
      exact ⟨oe, rfl⟩
  · refine ⟨fun ep opts hm => ?_, fun lp hlp => ?_⟩
    · have hm2 : opts = dialOptsFor cfg := by
        simp [mem_endpointTrace] at hm
        tauto
      rw [hm2]
      exact connectParams_mem_dialOptsFor cfg
    · obtain rfl : _ = lp := by simpa using hlp
      exact ⟨oe, rfl⟩

/-- C3 witness: at the all-zero configuration the dial options carry the
10-second default and the batch processor carries the 2-second interval
and 4096 queue size. -/
theorem initLogs_zero_tunables_defaulted_witness :
    DialOption.connectParams bo
      (if cfgBase.DialTimeout = 0 then 10 * nsPerSecond else cfgBase.DialTimeout)
      ∈ dialOptsFor cfgBase ∧
    ∃ oe, lpBase.processors.head? =
      some (Processor.batch oe
        (if cfgBase.ExportInterval = 0 then 2 * nsPerSecond else cfgBase.ExportInterval)
        (if cfgBase.MaxQueueSize = 0 then 4096 else cfgBase.MaxQueueSize)) := by
  have h := initLogs_zero_tunables_defaulted env0 okWorld cfgBase defaultGlobal
  exact ⟨h.1 "localhost:4317" (dialOptsFor cfgBase)
      (by rw [initLogs_eval_base]; simp),
    h.2 lpBase (by rw [initLogs_eval_base])⟩

/-- C6: on success with EnableStdout set the provider's processor list is
exactly the batching OTLP processor followed by the simple stdout
processor; with EnableStdout unset it is exactly the batching OTLP
processor; and a stdout exporter construction failure makes InitLogs
return an error rather than continue without the stdout processor. -/
theorem initLogs_stdout_processor_topology (env : Env) (w : World) (cfg : Config)
    (g : GlobalState) :
    (∀ lp, (InitLogs env w cfg g).result = .ok lp →
      (cfg.EnableStdout = true → ∃ oe se, lp.processors =
        [Processor.batch oe (resolvedExportInterval cfg) (resolvedMaxQueueSize cfg),
         Processor.simple se]) ∧
      (cfg.EnableStdout = false → ∃ oe, lp.processors =
        [Processor.batch oe (resolvedExportInterval cfg) (resolvedMaxQueueSize cfg)])) ∧
    (cfg.EnableStdout = true → ∀ e, w.stdoutNew = .error e →
      ∃ e2, (InitLogs env w cfg g).result = .error e2) := by
  rcases initLogs_cases env w cfg g with
    ⟨hn, hR⟩ | ⟨hn, e, hres, hR⟩ | ⟨hn, res, e, hres, hotlp, hR⟩ |
    ⟨hn, hstd, res, oe, e, hres, hotlp, hso, hR⟩ |
    ⟨hn, hstd, res, oe, hres, hotlp, hR⟩ |
    ⟨hn, hstd, res, oe, se, hres, hotlp, hso, hR⟩ <;> rw [hR]
  · exact ⟨fun lp hlp => by simp at hlp, fun _ e2 _ => ⟨.configError, rfl⟩⟩
  · exact ⟨fun lp hlp => by simp at hlp,
      fun _ e2 _ => ⟨.resourceBuildError e, rfl⟩⟩
  · exact ⟨fun lp hlp => by simp at hlp,
      fun _ e2 _ => ⟨.exporterInitError e, rfl⟩⟩
  · exact ⟨fun lp hlp => by simp at hlp,
      fun _ e2 _ => ⟨.stdoutExporterInitError e, rfl⟩⟩
  · refine ⟨fun lp hlp => ?_, fun ht e2 hso2 => ?_⟩
    · obtain rfl : _ = lp := by simpa using hlp
      refine ⟨fun ht => ?_, fun _ => ⟨oe, rfl⟩⟩
      rw [hstd] at ht
      exact Bool.noConfusion ht
    · rw [hstd] at ht
      exact Bool.noConfusion ht
  · refine ⟨fun lp hlp => ?_, fun ht e2 hso2 => ?_⟩
    · obtain rfl : _ = lp := by simpa using hlp
      refine ⟨fun _ => ⟨oe, se, rfl⟩, fun hf => ?_⟩
      rw [hstd] at hf
      exact Bool.noConfusion hf
    · rw [hso] at hso2
      exact absurd hso2 (by simp)

/-- C6 witness: with stdout enabled the processor list is the batch
processor then the simple stdout processor, and a failing stdout exporter
makes the call return an error. -/
theorem initLogs_stdout_processor_topology_witness :
    (∃ oe se, lpStdout.processors =
      [Processor.batch oe (resolvedExportInterval cfgStdout)
        (resolvedMaxQueueSize cfgStdout), Processor.simple se]) ∧
    (∃ e2, (InitLogs env0 failStdoutWorld cfgStdout defaultGlobal).result
      = .error e2) := by
  refine ⟨?_, ?_⟩
  · exact ((initLogs_stdout_processor_topology env0 okWorld cfgStdout
      defaultGlobal).1 lpStdout (by rw [initLogs_eval_stdout])).1 rfl
  · exact (initLogs_stdout_processor_topology env0 failStdoutWorld cfgStdout
      defaultGlobal).2 rfl "stdout boom" rfl

/-- C7: the dial options handed to the OTLP exporter constructor contain
the insecure (plaintext) transport credentials exactly when the Insecure
flag is set; when it is unset no transport-credentials option is present
at all, so the exporter's secure default applies. -/
theorem initLogs_transport_security (env : Env) (w : World) (cfg : Config)
    (g : GlobalState) :
    ∀ ep opts, Call.otlpNew ep opts ∈ (InitLogs env w cfg g).trace →
      ((DialOption.transportCredentials TransportCredentials.insecure ∈ opts) ↔
        cfg.Insecure = true) ∧
      (cfg.Insecure = false →
        ∀ c, DialOption.transportCredentials c ∉ opts) := by
  rcases initLogs_cases env w cfg g with
    ⟨hn, hR⟩ | ⟨hn, e, hres, hR⟩ | ⟨hn, res, e, hres, hotlp, hR⟩ |
    ⟨hn, hstd, res, oe, e, hres, hotlp, hso, hR⟩ |
    ⟨hn, hstd, res, oe, hres, hotlp, hR⟩ |
    ⟨hn, hstd, res, oe, se, hres, hotlp, hso, hR⟩ <;> rw [hR]
  · intro ep opts hm
    simp at hm
  · intro ep opts hm
    simp [mem_endpointTrace] at hm
  all_goals {
    intro ep opts hm
    have hm2 : opts = dialOptsFor cfg := by
      simp [mem_endpointTrace] at hm
      tauto
    subst hm2
    refine ⟨creds_mem_dialOptsFor cfg TransportCredentials.insecure, ?_⟩
    intro hins c hmem
    have hc := (creds_mem_dialOptsFor cfg c).mp hmem
    rw [hins] at hc
    exact Bool.noConfusion hc }

/-- C7 witness: with the Insecure flag set the constructed dial options
contain the insecure transport credentials. -/
theorem initLogs_transport_security_witness :
    DialOption.transportCredentials TransportCredentials.insecure
      ∈ dialOptsFor cfgInsecure := by
  exact ((initLogs_transport_security env0 okWorld cfgInsecure defaultGlobal
    "localhost:4317" (dialOptsFor cfgInsecure)
    (by rw [initLogs_eval_insecure]; simp)).1).mpr rfl

/-- C8: the dial options handed to the OTLP exporter constructor contain
the blocking option and a connect-params option whose backoff policy has
base delay 500ms, multiplier 1.6 and max delay 5s, and whose minimum
connect timeout is the resolved dial timeout. -/
theorem initLogs_backoff_dial_options (env : Env) (w : World) (cfg : Config)
    (g : GlobalState) :
    ∀ ep opts, Call.otlpNew ep opts ∈ (InitLogs env w cfg g).trace →
      DialOption.block ∈ opts ∧
      DialOption.connectParams
        { BaseDelay := 500 * nsPerMillisecond, Multiplier := (1.6 : Rat)
          MaxDelay := 5 * nsPerSecond }
        (if cfg.DialTimeout = 0 then 10 * nsPerSecond else cfg.DialTimeout)
        ∈ opts := by
  have hbo : BackoffConfig.mk (500 * nsPerMillisecond) (1.6 : Rat)
      (5 * nsPerSecond) = bo := rfl
  have hdt : (if cfg.DialTimeout = 0 then 10 * nsPerSecond else cfg.DialTimeout)
      = resolvedDialTimeout cfg := rfl
  rw [hbo, hdt]
  rcases initLogs_cases env w cfg g with
    ⟨hn, hR⟩ | ⟨hn, e, hres, hR⟩ | ⟨hn, res, e, hres, hotlp, hR⟩ |
    ⟨hn, hstd, res, oe, e, hres, hotlp, hso, hR⟩ |
    ⟨hn, hstd, res, oe, hres, hotlp, hR⟩ |
    ⟨hn, hstd, res, oe, se, hres, hotlp, hso, hR⟩ <;> rw [hR]
  · intro ep opts hm
    simp at hm
  · intro ep opts hm
    simp [mem_endpointTrace] at hm
  all_goals {
    intro ep opts hm
    have hm2 : opts = dialOptsFor cfg := by
      simp [mem_endpointTrace] at hm
      tauto
    subst hm2
    exact ⟨block_mem_dialOptsFor cfg, connectParams_mem_dialOptsFor cfg⟩ }

/-- C8 witness: at the base configuration the constructed dial options
contain the blocking option and the documented backoff policy with the
resolved (defaulted) dial timeout. -/
theorem initLogs_backoff_dial_options_witness :
    DialOption.block ∈ dialOptsFor cfgBase ∧
    DialOption.connectParams
      { BaseDelay := 500 * nsPerMillisecond, Multiplier := (1.6 : Rat)
        MaxDelay := 5 * nsPerSecond }
      (if cfgBase.DialTimeout = 0 then 10 * nsPerSecond else cfgBase.DialTimeout)
      ∈ dialOptsFor cfgBase := by
  exact initLogs_backoff_dial_options env0 okWorld cfgBase defaultGlobal
    "localhost:4317" (dialOptsFor cfgBase) (by rw [initLogs_eval_base]; simp)

/-- C9: past validation InitLogs calls the resource constructor with the
env, host and SDK merge options plus exactly the four explicit attributes
(service name, service version, deployment.environment, the log-level
tag); a resource build failure makes the call return the wrapping error
with the global provider unchanged. -/
theorem initLogs_resource_descriptor (env : Env) (w : World) (cfg : Config)
    (g : GlobalState) (h : cfg.ServiceName ≠ "") :
    Call.resourceNew (resourceArgsFor cfg) ∈ (InitLogs env w cfg g).trace ∧
    resourceArgsFor cfg =
      { fromEnv := true, host := true, telemetrySDK := true
        attributes :=
          [ { key := "service.name", value := .str cfg.ServiceName }
          , { key := "service.version", value := .str cfg.ServiceVer }
          , { key := "deployment.environment", value := .str cfg.Environment }
          , { key := "deployment.log_level", value := .str cfg.LogLevel } ] } ∧
    (∀ e, w.resourceNew (resourceArgsFor cfg) = .error e →
      (InitLogs env w cfg g).result = .error (.resourceBuildError e) ∧
      (InitLogs env w cfg g).global = g) := by
  rcases initLogs_cases env w cfg g with
    ⟨hn, hR⟩ | ⟨hn, e, hres, hR⟩ | ⟨hn, res, e, hres, hotlp, hR⟩ |
    ⟨hn, hstd, res, oe, e, hres, hotlp, hso, hR⟩ |
    ⟨hn, hstd, res, oe, hres, hotlp, hR⟩ |
    ⟨hn, hstd, res, oe, se, hres, hotlp, hso, hR⟩
  · exact absurd hn h
  · rw [hR]
    refine ⟨by simp, rfl, ?_⟩
    intro e2 he
    rw [hres] at he
    obtain rfl : e = e2 := by simpa using he
    exact ⟨rfl, rfl⟩
  all_goals {
    rw [hR]
    refine ⟨by simp, rfl, ?_⟩
    intro e2 he
    rw [hres] at he
    exact absurd he (by simp) }

/-- C9 witness: with a failing resource constructor the call returns the
wrapped resource error and leaves the default global untouched, after
making the traced resource-construction call. -/
theorem initLogs_resource_descriptor_witness :
    Call.resourceNew (resourceArgsFor cfgBase) ∈
      (InitLogs env0 failResourceWorld cfgBase defaultGlobal).trace ∧
    (InitLogs env0 failResourceWorld cfgBase defaultGlobal).result =
      .error (.resourceBuildError "resource boom") ∧
    (InitLogs env0 failResourceWorld cfgBase defaultGlobal).global =
      defaultGlobal := by
  have h := initLogs_resource_descriptor env0 failResourceWorld cfgBase
    defaultGlobal (by decide)
  exact ⟨h.1, (h.2.2 "resource boom" rfl).1, (h.2.2 "resource boom" rfl).2⟩

/-- C10: defaulting triggers only on the exact zero value — a strictly
negative DialTimeout, ExportInterval or MaxQueueSize is forwarded
unchanged to the dial options and to the batch processor. -/
theorem initLogs_negative_tunables_forwarded (env : Env) (w : World)
    (cfg : Config) (g : GlobalState) :
    (cfg.DialTimeout < 0 →
      ∀ ep opts, Call.otlpNew ep opts ∈ (InitLogs env w cfg g).trace →
        DialOption.connectParams bo cfg.DialTimeout ∈ opts) ∧
    (cfg.ExportInterval < 0 →
      ∀ lp, (InitLogs env w cfg g).result = .ok lp →
        ∃ oe q, lp.processors.head? =
          some (Processor.batch oe cfg.ExportInterval q)) ∧
    (cfg.MaxQueueSize < 0 →
      ∀ lp, (InitLogs env w cfg g).result = .ok lp →
        ∃ oe i, lp.processors.head? =
          some (Processor.batch oe i cfg.MaxQueueSize)) := by
  have hdt : cfg.DialTimeout < 0 → resolvedDialTimeout cfg = cfg.DialTimeout := by
    intro hlt
    unfold resolvedDialTimeout
    rw [if_neg (by omega)]
  have hei : cfg.ExportInterval < 0 →
      resolvedExportInterval cfg = cfg.ExportInterval := by
    intro hlt
    unfold resolvedExportInterval
    rw [if_neg (by omega)]
  have hqs : cfg.MaxQueueSize < 0 → resolvedMaxQueueSize cfg = cfg.MaxQueueSize := by
    intro hlt
    unfold resolvedMaxQueueSize
    rw [if_neg (by omega)]
  rcases initLogs_cases env w cfg g with
    ⟨hn, hR⟩ | ⟨hn, e, hres, hR⟩ | ⟨hn, res, e, hres, hotlp, hR⟩ |
    ⟨hn, hstd, res, oe, e, hres, hotlp, hso, hR⟩ |
    ⟨hn, hstd, res, oe, hres, hotlp, hR⟩ |
    ⟨hn, hstd, res, oe, se, hres, hotlp, hso, hR⟩ <;> rw [hR]
  · exact ⟨fun _ ep opts hm => by simp at hm,
      fun _ lp hlp => by simp at hlp, fun _ lp hlp => by simp at hlp⟩
  · exact ⟨fun _ ep opts hm => by simp [mem_endpointTrace] at hm,
      fun _ lp hlp => by simp at hlp, fun _ lp hlp => by simp at hlp⟩
  · refine ⟨fun hlt ep opts hm => ?_,
      fun _ lp hlp => by simp at hlp, fun _ lp hlp => by simp at hlp⟩
    have hm2 : opts = dialOptsFor cfg := by
      simp [mem_endpointTrace] at hm
      tauto
    subst hm2
    have hcp := connectParams_mem_dialOptsFor cfg
    rw [hdt hlt] at hcp
    exact hcp
  · refine ⟨fun hlt ep opts hm => ?_,
      fun _ lp hlp => by simp at hlp, fun _ lp hlp => by simp at hlp⟩
    have hm2 : opts = dialOptsFor cfg := by
      simp [mem_endpointTrace] at hm
      tauto
    subst hm2
    have hcp := connectParams_mem_dialOptsFor cfg
    rw [hdt hlt] at hcp
    exact hcp
  all_goals {
    refine ⟨fun hlt ep opts hm => ?_, fun hlt lp hlp => ?_, fun hlt lp hlp => ?_⟩
    · have hm2 : opts = dialOptsFor cfg := by
        simp [mem_endpointTrace] at hm
        tauto
      subst hm2
      have hcp := connectParams_mem_dialOptsFor cfg
      rw [hdt hlt] at hcp
      exact hcp
    · obtain rfl : _ = lp := by simpa using hlp
      refine ⟨oe, resolvedMaxQueueSize cfg, ?_⟩
      rw [← hei hlt]
      rfl
    · obtain rfl : _ = lp := by simpa using hlp
      refine ⟨oe, resolvedExportInterval cfg, ?_⟩
      rw [← hqs hlt]
      rfl }

/-- C10 witness: at the all-negative configuration the dial options carry
the negative dial timeout and the batch processor carries the negative
export interval and max queue size unchanged. -/
theorem initLogs_negative_tunables_forwarded_witness :
    DialOption.connectParams bo cfgNegative.DialTimeout
      ∈ dialOptsFor cfgNegative ∧
    (∃ oe q, lpNegative.processors.head? =
      some (Processor.batch oe cfgNegative.ExportInterval q)) ∧
    (∃ oe i, lpNegative.processors.head? =
      some (Processor.batch oe i cfgNegative.MaxQueueSize)) := by
  have h := initLogs_negative_tunables_forwarded env0 okWorld cfgNegative
    defaultGlobal
  exact ⟨h.1 (by decide) "localhost:4317" (dialOptsFor cfgNegative)
      (by rw [initLogs_eval_negative]; simp),
    h.2.1 (by decide) lpNegative (by rw [initLogs_eval_negative]),
    h.2.2 (by decide) lpNegative (by rw [initLogs_eval_negative])⟩

end GoObservability
